import Mathlib

/-!
# Verification of the chat session state machine

Shallow embedding of the chat client's session state machine
(`src/contexts/ChatContext.tsx`) together with the mock backend collaborator
(`src/services/mockResponses.ts`).  Each `setState` call of the source is
translated into a pure state-update function on `ChatState`; the abort
controller reference is modelled as a pending-request token carried next to
the UI state.  Asynchronous interleavings are captured by a labelled step
relation whose constructors are exactly those update functions.
-/

set_option maxRecDepth 4096

namespace ChatSpec

/-! ## String-keyed association maps

JavaScript object maps (`prev.messages`, `prev.draftMessages`,
`prev.hasMoreMessages`) are modelled as association lists with
first-match lookup; `{...m, [k]: v}` is `minsert`, `delete m[k]` is
`merase`, and `m[k] || fallback` is `mfind` + default. -/

abbrev SMap (α : Type) : Type := List (String × α)

def mfind {α : Type} : SMap α → String → Option α
  | [], _ => none
  | (k', v) :: rest, k => if k = k' then some v else mfind rest k

def minsert {α : Type} (m : SMap α) (k : String) (v : α) : SMap α :=
  (k, v) :: m.filter (fun p => decide (p.1 ≠ k))

def merase {α : Type} (m : SMap α) (k : String) : SMap α :=
  m.filter (fun p => decide (p.1 ≠ k))

/-- `m[k] || []` for message lists. -/
def mfindD {α : Type} (m : SMap α) (k : String) (d : α) : α :=
  (mfind m k).getD d

/-! ## Data model (`src/types/chat.types.ts`) -/

inductive Role where
  | user
  | assistant
deriving DecidableEq, Repr

inductive MessageStatus where
  | sending
  | sent
  | failed
  | typing
  | thinking
  | interrupted
deriving DecidableEq, Repr

structure Message where
  id : String
  chatId : String
  role : Role
  content : String
  timestamp : String
  status : MessageStatus
  /-- optional in the source; absence is modelled as `false` -/
  wasInterrupted : Bool := false
deriving DecidableEq, Repr

structure Chat where
  id : String
  userId : String
  title : String
  lastMessage : Option String := none
  lastMessageAt : String
  createdAt : String
  messageCount : Nat
deriving DecidableEq, Repr

/-- `ChatState` of `src/types/chat.types.ts` / `ChatContext.tsx` lines 20-38.
`nextCursor` and the five flags after it are declared in the source but never
updated by any operation. -/
structure ChatState where
  currentChatId : Option String
  chats : List Chat
  messages : SMap (List Message)
  draftMessages : SMap String
  hasMoreMessages : SMap Bool
  isLoadingMessages : Bool
  isLoadingChats : Bool
  isSendingMessage : Bool
  isSwitchingChat : Bool
  isAITyping : Bool
  isAIThinking : Bool
  isCreatingChat : Bool
  isExporting : Bool
  isDeletingChat : Bool
  nextCursor : Option String
  error : Option String
  typingMessage : Option String
deriving DecidableEq, Repr

/-- `initialState` (`ChatContext.tsx` lines 20-38). -/
def initialChatState : ChatState where
  currentChatId := none
  chats := []
  messages := []
  draftMessages := []
  hasMoreMessages := []
  isLoadingMessages := false
  isLoadingChats := false
  isSendingMessage := false
  isSwitchingChat := false
  isAITyping := false
  isAIThinking := false
  isCreatingChat := false
  isExporting := false
  isDeletingChat := false
  nextCursor := none
  error := none
  typingMessage := none

/-- JavaScript truthiness of a nullable string (`null` and `''` are falsy). -/
def strTruthy : Option String → Bool
  | none => false
  | some t => decide (t ≠ "")

/-! ## Session operations (`ChatContext.tsx`)

Each pure function below is the functional `setState` update of one
operation, applied to the previous state snapshot. -/

/-- `selectChat` state update (`ChatContext.tsx` lines 136-153).  The
subsequent `loadMessages(chatId)` call is a separate step. -/
def selectChatUpdate (chatId : String) (s : ChatState) : ChatState :=
  { s with
    currentChatId := some chatId
    typingMessage := none
    isSendingMessage := false
    messages := minsert s.messages chatId []
    hasMoreMessages := minsert s.hasMoreMessages chatId true
    draftMessages :=
      minsert s.draftMessages chatId ((mfind s.draftMessages chatId).getD "") }

/-- `createNewChat` state update (`ChatContext.tsx` lines 169-183). -/
def createNewChatUpdate (newChatId : String) (s : ChatState) : ChatState :=
  { s with
    currentChatId := some newChatId
    messages := minsert s.messages newChatId []
    draftMessages := minsert s.draftMessages newChatId ""
    typingMessage := none
    isSendingMessage := false }

/-- `sendMessage`, fresh-session branch (`ChatContext.tsx` lines 238-248):
when no chat is selected, a temporary id is synthesized and registered. -/
def sendNewChatUpdate (tempChatId : String) (s : ChatState) : ChatState :=
  { s with
    currentChatId := some tempChatId
    messages := minsert s.messages tempChatId [] }

/-- The optimistic user message (`ChatContext.tsx` lines 258-265). -/
def mkUserMessage (msgId chatId content ts : String) : Message where
  id := msgId
  chatId := chatId
  role := .user
  content := content
  timestamp := ts
  status := .sent

/-- The optimistic assistant placeholder (`ChatContext.tsx` lines 268-275). -/
def mkThinkingMessage (msgId chatId ts : String) : Message where
  id := msgId
  chatId := chatId
  role := .assistant
  content := ""
  timestamp := ts
  status := .thinking

/-- `sendMessage` optimistic state update (`ChatContext.tsx` lines 277-289):
appends the user message and the thinking placeholder and clears the draft. -/
def sendOptimisticUpdate (chatId msgIdU msgIdT content ts : String)
    (s : ChatState) : ChatState :=
  { s with
    isSendingMessage := true
    error := none
    messages := minsert s.messages chatId
      (mfindD s.messages chatId [] ++
        [mkUserMessage msgIdU chatId content ts, mkThinkingMessage msgIdT chatId ts])
    draftMessages := minsert s.draftMessages chatId "" }

/-- Synchronous prefix of `sendMessage` (`ChatContext.tsx` lines 233-289):
guard on the signed-in user, temporary-chat synthesis when no chat is
selected, then the optimistic update.  `hasUser` models `user` being
non-null in the auth context. -/
def sendMessageSync (hasUser : Bool) (tempChatId msgIdU msgIdT content ts : String)
    (s : ChatState) : ChatState :=
  if hasUser then
    match s.currentChatId with
    | none =>
        sendOptimisticUpdate tempChatId msgIdU msgIdT content ts
          (sendNewChatUpdate tempChatId s)
    | some chatId => sendOptimisticUpdate chatId msgIdU msgIdT content ts s
  else s

/-- `sendMessage` re-keying update after `createChat` resolves
(`ChatContext.tsx` lines 299-315): messages move from the temporary id to
the server-assigned id, each with its `chatId` field rewritten. -/
def rekeyUpdate (tempChatId : String) (newChat : Chat) (s : ChatState) : ChatState :=
  let tempMessages := mfindD s.messages tempChatId []
  { s with
    currentChatId := some newChat.id
    chats := newChat :: s.chats
    messages :=
      minsert (merase s.messages tempChatId) newChat.id
        (tempMessages.map (fun m => { m with chatId := newChat.id })) }

/-- `sendMessage` response update (`ChatContext.tsx` lines 329-347): the
thinking placeholder is filtered out and the response is appended with
status `typing`. -/
def sendResponseUpdate (actualChatId : String) (aiResponse : Message)
    (s : ChatState) : ChatState :=
  let filteredMessages :=
    (mfindD s.messages actualChatId []).filter
      (fun m => decide (m.status ≠ .thinking))
  { s with
    messages := minsert s.messages actualChatId
      (filteredMessages ++ [{ aiResponse with chatId := actualChatId, status := .typing }]) }

/-- `sendMessage` catch, `AbortError` branch (`ChatContext.tsx` lines 356-369). -/
def sendAbortUpdate (errorChatId : String) (s : ChatState) : ChatState :=
  { s with
    messages := minsert s.messages errorChatId
      ((mfindD s.messages errorChatId []).filter (fun m => decide (m.status ≠ .thinking)))
    isSendingMessage := false }

/-- `sendMessage` catch, other-error branch (`ChatContext.tsx` lines 371-385).
The catch block does not rethrow, so the `sendMessage` promise always
resolves; it also does not restore the draft cleared by the optimistic
update. -/
def sendErrorUpdate (errorChatId errMsg : String) (s : ChatState) : ChatState :=
  { s with
    messages := minsert s.messages errorChatId
      ((mfindD s.messages errorChatId []).filter (fun m => decide (m.status ≠ .thinking)))
    isSendingMessage := false
    error := some errMsg }

/-! ## Typing animation (`ChatContext.tsx` lines 187-230)

The interval callback either reveals one more character
(`currentIndex < chars.length`) or finalizes the message. -/

/-- Reveal branch of the interval callback (`ChatContext.tsx` lines 194-202):
after processing index `currentIndex`, the revealed text is the first
`currentIndex + 1` characters. -/
def typingRevealUpdate (fullMessage : String) (currentIndex : Nat)
    (s : ChatState) : ChatState :=
  { s with typingMessage := some (fullMessage.take (currentIndex + 1)) }

/-- Completion branch of the interval callback (`ChatContext.tsx` lines
204-227): the message with the animated id gets the full content and status
`sent`; the revealed partial text is cleared. -/
def typingCompleteUpdate (fullMessage messageId : String) (s : ChatState) : ChatState :=
  match s.currentChatId with
  | none => s
  | some chatId =>
    let messages := mfindD s.messages chatId []
    let updatedMessages := messages.map (fun msg =>
      if msg.id = messageId then { msg with content := fullMessage, status := .sent }
      else msg)
    { s with
      messages := minsert s.messages chatId updatedMessages
      typingMessage := none
      isSendingMessage := false }

/-- One tick of `startTypingAnimation`'s interval at `currentIndex`. -/
def animTick (fullMessage messageId : String) (currentIndex : Nat)
    (s : ChatState) : ChatState :=
  if currentIndex < fullMessage.length then
    typingRevealUpdate fullMessage currentIndex s
  else
    typingCompleteUpdate fullMessage messageId s

/-- `k` consecutive ticks of the animation, starting from index 0. -/
def runTicks (fullMessage messageId : String) : Nat → ChatState → ChatState
  | 0, s => s
  | k + 1, s => animTick fullMessage messageId k (runTicks fullMessage messageId k s)

/-! ## cancelMessage (`ChatContext.tsx` lines 392-517) -/

/-- Outcome reported to the backend by `mockApi.chat.updateMessage`. -/
inductive CancelOutcome where
  | interrupted
  | cancelled
deriving DecidableEq, Repr

/-- A fire-and-forget `mockApi.chat.updateMessage` call issued by
`cancelMessage` (`ChatContext.tsx` lines 425, 447, 473, 495). -/
structure Notify where
  chatId : String
  messageId : String
  outcome : CancelOutcome
  finalContent : String
deriving DecidableEq, Repr

/-- `cancelMessage` state update (`ChatContext.tsx` lines 400-516), returning
the new state together with the backend notification, if any.  The source
duplicates the same typing/thinking branches verbatim in both arms of the
`isInterruption && newContent` test (lines 412-459 and 460-508); the shared
branch bodies are bound once here and referenced from both arms. -/
def cancelMessageUpdate (isInterruption : Bool) (newContent : Option String)
    (s : ChatState) : ChatState × Option Notify :=
  match s.currentChatId with
  | none => (s, none)
  | some chatId =>
    let messages := mfindD s.messages chatId []
    let lastMessage := messages.getLast?
    -- `messages[messages.length - 2]` is `undefined` in JS when length < 2
    let secondLastMessage :=
      if 2 ≤ messages.length then messages[messages.length - 2]? else none
    let isTyping :=
      (lastMessage.any (fun m => m.status == .typing)) && strTruthy s.typingMessage
    let isThinking := lastMessage.any (fun m => m.status == .thinking)
    -- typing branch (lines 414-436 / 462-484)
    let interruptedContent :=
      if strTruthy s.typingMessage then (s.typingMessage.getD "") ++ "—" else ""
    let typingResult : ChatState × Option Notify :=
      (({ s with
          messages := minsert s.messages chatId
            (messages.map (fun msg =>
              if msg.status = .typing then
                { msg with content := interruptedContent, status := .interrupted,
                           wasInterrupted := true }
              else msg))
          isSendingMessage := false
          typingMessage := none }),
       if strTruthy s.typingMessage then
         some { chatId := chatId, messageId := ((lastMessage.map (·.id)).getD ""),
                outcome := .interrupted, finalContent := interruptedContent }
       else none)
    -- thinking branch (lines 437-459 / 485-507)
    let thinkingResult : ChatState × Option Notify :=
      (({ s with
          messages := minsert s.messages chatId
            (messages.map (fun msg =>
              if msg.status = .thinking then
                { msg with content := "", status := .interrupted,
                           wasInterrupted := true, role := .assistant }
              else msg))
          isSendingMessage := false
          typingMessage := none }),
       if secondLastMessage.any (fun m => m.role == .user) then
         some { chatId := chatId, messageId := ((lastMessage.map (·.id)).getD ""),
                outcome := .cancelled, finalContent := "" }
       else none)
    -- fall-through (lines 510-515)
    let noActiveResult : ChatState × Option Notify :=
      ({ s with isSendingMessage := false, typingMessage := none }, none)
    if isInterruption && strTruthy newContent then
      if isTyping then typingResult
      else if isThinking then thinkingResult
      else noActiveResult
    else
      if isTyping then typingResult
      else if isThinking then thinkingResult
      else noActiveResult

/-! ## loadMessages (`ChatContext.tsx` lines 91-123) -/

/-- Response shape of `mockApi.chat.getMessages`. -/
structure MessagesResponse where
  messages : List Message
  hasMore : Bool
  nextCursor : Option String
deriving DecidableEq, Repr

/-- Entry update of `loadMessages` (`ChatContext.tsx` line 92). -/
def loadMessagesStart (s : ChatState) : ChatState :=
  { s with isLoadingMessages := true, error := none }

/-- Success update of `loadMessages` (`ChatContext.tsx` lines 97-115): with
a cursor the page is appended to the in-memory list, without one it replaces
the list; the per-chat `hasMore` flag comes from the response. -/
def loadMessagesSuccess (chatId : String) (cursor : Option String)
    (response : MessagesResponse) (s : ChatState) : ChatState :=
  let existingMessages := mfindD s.messages chatId []
  let newMessages :=
    match cursor with
    | some _ => existingMessages ++ response.messages
    | none => response.messages
  { s with
    messages := minsert s.messages chatId newMessages
    hasMoreMessages := minsert s.hasMoreMessages chatId response.hasMore
    isLoadingMessages := false }

/-- Failure update of `loadMessages` (`ChatContext.tsx` lines 116-122). -/
def loadMessagesFailure (errMsg : String) (s : ChatState) : ChatState :=
  { s with isLoadingMessages := false, error := some errMsg }

/-! ## deleteChat (`ChatContext.tsx` lines 567-623) -/

/-- Response shape of `mockApi.chat.deleteChat`. -/
structure DeleteResult where
  success : Bool
  remainingChats : List Chat
deriving DecidableEq, Repr

/-- Entry update of `deleteChat` (`ChatContext.tsx` line 568). -/
def deleteChatStart (s : ChatState) : ChatState :=
  { s with isDeletingChat := true, error := none }

/-- Success update of `deleteChat` (`ChatContext.tsx` lines 582-608). -/
def deleteChatSuccess (chatId : String) (s : ChatState) : ChatState :=
  { s with
    chats := s.chats.filter (fun chat => decide (chat.id ≠ chatId))
    messages := merase s.messages chatId
    draftMessages := merase s.draftMessages chatId
    hasMoreMessages := merase s.hasMoreMessages chatId
    currentChatId := if s.currentChatId = some chatId then none else s.currentChatId
    isDeletingChat := false
    error := none }

/-- Resolution of `deleteChat` on a backend response (`ChatContext.tsx`
lines 579-614): the state is updated only when `result.success` holds —
the source has no `else` branch for a non-success result. -/
def deleteChatResolve (result : DeleteResult) (chatId : String)
    (s : ChatState) : ChatState :=
  if result.success then deleteChatSuccess chatId s else s

/-- Catch update of `deleteChat` (`ChatContext.tsx` lines 615-622); the
error is additionally rethrown to the caller. -/
def deleteChatFailure (errMsg : String) (s : ChatState) : ChatState :=
  { s with isDeletingChat := false, error := some errMsg }

/-! ## Draft store (`ChatContext.tsx` lines 548-564) -/

/-- `saveDraft` (`ChatContext.tsx` lines 548-558).  For strings,
`content || ''` equals `content`. -/
def saveDraft (chatId content : String) (s : ChatState) : ChatState :=
  if chatId = "" then s
  else { s with draftMessages := minsert s.draftMessages chatId content }

/-- `getDraft` (`ChatContext.tsx` lines 561-564). -/
def getDraft (chatId : String) (s : ChatState) : String :=
  if chatId = "" then "" else (mfind s.draftMessages chatId).getD ""

/-! ## Mock backend (`src/services/mockResponses.ts`) -/

def DEMO_RESPONSE : String :=
  "This is a demo, so I will simply repeat this sentence about, idk like 1 more times, so you can see how the typing functionality is for the user to experience for a paragraph's long response."

def userQuestions : List String :=
  [ "What are the symptoms of the common cold?"
  , "How can I improve my sleep quality?"
  , "What foods are good for heart health?"
  , "How much water should I drink daily?"
  , "What are the benefits of regular exercise?"
  , "How can I manage stress effectively?"
  , "What vitamins are essential for immune health?"
  , "How often should I get health checkups?"
  , "What are signs of dehydration?"
  , "How can I improve my posture?"
  , "What causes headaches?"
  , "How can I boost my energy levels naturally?"
  , "What are healthy snack options?"
  , "How important is stretching before exercise?"
  , "What are the risks of a sedentary lifestyle?" ]

/-- `generateMockMessages` (`mockResponses.ts` lines 70-107): `count`
alternating user/assistant messages, all with status `sent`, most recent
first.  `baseTime` stands for `Date.now() - count * 300000`. -/
def generateMockMessages (chatId : String) (count : Nat) (baseTime : Nat) :
    List Message :=
  ((List.range count).map (fun i =>
    ({ id := "msg-" ++ chatId ++ "-" ++ toString i
       chatId := chatId
       role := if i % 2 = 0 then Role.user else Role.assistant
       content :=
         if i % 2 = 0 then (userQuestions.getD ((i / 2) % userQuestions.length) "")
         else DEMO_RESPONSE
       timestamp := toString (baseTime + i * 300000)
       status := .sent } : Message))).reverse

/-- `mockApi.chat.getMessages` (`mockResponses.ts` lines 141-163).  The
cursor is the number of messages already loaded; the context only ever
passes cursors produced as `nextCursor`, modelled here as `Option Nat`. -/
def mockGetMessages (chatId : String) (cursor : Option Nat) (baseTime : Nat)
    (limit : Nat := 10) : MessagesResponse :=
  let allMessages := generateMockMessages chatId 30 baseTime
  let startIndex := cursor.getD 0
  let endIndex := min (startIndex + limit) allMessages.length
  { messages := (allMessages.drop startIndex).take (endIndex - startIndex)
    hasMore := decide (endIndex < allMessages.length)
    nextCursor := if endIndex < allMessages.length then some (toString endIndex) else none }

/-! ## The transition system

`SysState` pairs the UI state with a model of `abortControllerRef`: the id
of the chat whose send request is currently in flight (`pending = none`
when the controller has been aborted, cleared, or its request consumed).
A response is applied only while its request is still the current one,
mirroring the `controller?.signal.aborted` check (`ChatContext.tsx`
lines 319-326). -/

structure SysState where
  ui : ChatState
  pending : Option String
deriving DecidableEq, Repr

def initSys : SysState := ⟨initialChatState, none⟩

/-- A message is in flight when its status is `thinking` or `typing`. -/
def inFlightB (m : Message) : Bool :=
  m.status == .thinking || m.status == .typing

def typingB (m : Message) : Bool :=
  m.status == .typing

/-- Number of in-flight assistant messages (status `thinking` or `typing`). -/
def inFlightCount (l : List Message) : Nat :=
  l.countP inFlightB

/-- Number of messages with status `typing`. -/
def typingCount (l : List Message) : Nat :=
  l.countP typingB

/-- Micro-step relation over the session operations named by the spec's
invariant (sendMessage, cancelMessage, selectChat, createNewChat,
loadMessages, deleteChat), decomposed at the granularity of the source's
individual `setState` calls.  The constructors' parameters stand for data
chosen by the environment (ids, timestamps, backend payloads).

When `guarded` is `true`, the `sendOptimistic` step may fire only on a chat
with no in-flight assistant message — the discipline the input component
enforces by calling `cancelMessage` before a concurrent send
(`InputArea.tsx` lines 81-84); with `guarded = false` the relation is the
unrestricted context API. -/
inductive Step (guarded : Bool) : SysState → SysState → Prop where
  | selectChat (u : ChatState) (p : Option String) (chatId : String) :
      Step guarded ⟨u, p⟩ ⟨selectChatUpdate chatId u, none⟩
  | createNewChat (u : ChatState) (p : Option String) (t : Nat) :
      Step guarded ⟨u, p⟩ ⟨createNewChatUpdate ("new-chat-" ++ toString t) u, none⟩
  | sendNewChat (u : ChatState) (p : Option String) (t : Nat)
      (h : u.currentChatId = none) :
      Step guarded ⟨u, p⟩ ⟨sendNewChatUpdate ("new-chat-" ++ toString t) u, p⟩
  | sendOptimistic (u : ChatState) (p : Option String)
      (chatId msgIdU msgIdT content ts : String)
      (h : u.currentChatId = some chatId)
      (hguard : guarded = true → inFlightCount (mfindD u.messages chatId []) = 0) :
      Step guarded ⟨u, p⟩
        ⟨sendOptimisticUpdate chatId msgIdU msgIdT content ts u, some chatId⟩
  | sendRekey (u : ChatState) (tempChatId : String) (newChat : Chat)
      (hp : ∃ t : Nat, tempChatId = "new-chat-" ++ toString t) :
      Step guarded ⟨u, some tempChatId⟩ ⟨rekeyUpdate tempChatId newChat u, some newChat.id⟩
  | sendResponse (u : ChatState) (chatId : String) (aiResponse : Message) :
      Step guarded ⟨u, some chatId⟩ ⟨sendResponseUpdate chatId aiResponse u, none⟩
  | sendAbort (u : ChatState) (p : Option String) (errorChatId : String) :
      Step guarded ⟨u, p⟩ ⟨sendAbortUpdate errorChatId u, p⟩
  | sendError (u : ChatState) (p : Option String) (errorChatId errMsg : String) :
      Step guarded ⟨u, p⟩ ⟨sendErrorUpdate errorChatId errMsg u, p⟩
  | cancel (u : ChatState) (p : Option String) (isInterruption : Bool)
      (newContent : Option String) :
      Step guarded ⟨u, p⟩ ⟨(cancelMessageUpdate isInterruption newContent u).1, none⟩
  | typingReveal (u : ChatState) (p : Option String) (fullMessage : String)
      (currentIndex : Nat) (h : currentIndex < fullMessage.length) :
      Step guarded ⟨u, p⟩ ⟨typingRevealUpdate fullMessage currentIndex u, p⟩
  | typingComplete (u : ChatState) (p : Option String) (fullMessage messageId : String) :
      Step guarded ⟨u, p⟩ ⟨typingCompleteUpdate fullMessage messageId u, p⟩
  | loadStart (u : ChatState) (p : Option String) :
      Step guarded ⟨u, p⟩ ⟨loadMessagesStart u, p⟩
  | loadSuccess (u : ChatState) (p : Option String) (chatId : String)
      (cursor : Option Nat) (baseTime : Nat) :
      Step guarded ⟨u, p⟩
        ⟨loadMessagesSuccess chatId (cursor.map toString)
          (mockGetMessages chatId cursor baseTime) u, p⟩
  | loadFailure (u : ChatState) (p : Option String) (errMsg : String) :
      Step guarded ⟨u, p⟩ ⟨loadMessagesFailure errMsg u, p⟩
  | deleteStart (u : ChatState) (p : Option String) (chatId : String) :
      Step guarded ⟨u, p⟩
        ⟨deleteChatStart u, if u.currentChatId = some chatId then none else p⟩
  | deleteResolve (u : ChatState) (p : Option String) (result : DeleteResult)
      (chatId : String) :
      Step guarded ⟨u, p⟩ ⟨deleteChatResolve result chatId u, p⟩
  | deleteFailure (u : ChatState) (p : Option String) (errMsg : String) :
      Step guarded ⟨u, p⟩ ⟨deleteChatFailure errMsg u, p⟩

/-- States reachable from the initial state by the session operations. -/
def Reachable (guarded : Bool) (s : SysState) : Prop :=
  Relation.ReflTransGen (Step guarded) initSys s

/-- The per-chat invariant of the spec: at most one in-flight assistant
message per chat. -/
def PerChatAtMostOne (u : ChatState) : Prop :=
  ∀ chatId, inFlightCount (mfindD u.messages chatId []) ≤ 1

/-- Auxiliary invariant: while a send request is in flight for a chat,
that chat holds no `typing` message (its in-flight message, if any, is the
`thinking` placeholder). -/
def PendingNoTyping (s : SysState) : Prop :=
  ∀ chatId, s.pending = some chatId →
    typingCount (mfindD s.ui.messages chatId []) = 0

def SysInv (s : SysState) : Prop := PerChatAtMostOne s.ui ∧ PendingNoTyping s

/-! ## Lookup lemmas for the association maps -/

@[simp] theorem mfind_nil {α : Type} (k : String) : mfind ([] : SMap α) k = none := rfl

theorem mfind_filter_ne {α : Type} (m : SMap α) (k : String) :
    mfind (m.filter (fun p => decide (p.1 ≠ k))) k = none := by
  induction m with
  | nil => rfl
  | cons p rest ih =>
    simp only [List.filter]
    by_cases h : p.1 = k
    · have hd : decide (p.1 ≠ k) = false := by simp [h]
      rw [hd]
      exact ih
    · have hd : decide (p.1 ≠ k) = true := by simpa using h
      rw [hd]
      simp only [mfind]
      rw [if_neg (fun hk => h hk.symm)]
      exact ih

theorem mfind_filter_ne_of_ne {α : Type} (m : SMap α) (k k' : String) (hne : k' ≠ k) :
    mfind (m.filter (fun p => decide (p.1 ≠ k))) k' = mfind m k' := by
  induction m with
  | nil => rfl
  | cons p rest ih =>
    by_cases h : p.1 = k
    · have : decide (p.1 ≠ k) = false := by simp [h]
      simp only [List.filter, this]
      rw [ih]
      simp only [mfind]
      rw [if_neg (fun hk => hne (hk.trans h))]
    · have : decide (p.1 ≠ k) = true := by simpa using h
      simp only [List.filter, this, mfind]
      by_cases hk : k' = p.1
      · simp [hk]
      · rw [if_neg hk, if_neg hk, ih]

@[simp] theorem mfind_minsert_self {α : Type} (m : SMap α) (k : String) (v : α) :
    mfind (minsert m k v) k = some v := by
  simp [minsert, mfind]

theorem mfind_minsert_ne {α : Type} (m : SMap α) (k k' : String) (v : α) (h : k' ≠ k) :
    mfind (minsert m k v) k' = mfind m k' := by
  simp only [minsert, mfind]
  rw [if_neg h]
  exact mfind_filter_ne_of_ne m k k' h

@[simp] theorem mfind_merase_self {α : Type} (m : SMap α) (k : String) :
    mfind (merase m k) k = none := mfind_filter_ne m k

theorem mfind_merase_ne {α : Type} (m : SMap α) (k k' : String) (h : k' ≠ k) :
    mfind (merase m k) k' = mfind m k' := mfind_filter_ne_of_ne m k k' h

/-! ## Claim theorems -/

/-- **C2.** For every non-empty content, `sendMessage` with
`currentChatId = null` and a signed-in user creates exactly one new chat
with a temporary id and, before the backend call resolves (i.e. already
after the synchronous prefix of `sendMessage`), appends exactly two
messages to that chat's list: a user message with that content and status
`sent`, followed by an assistant placeholder with empty content and status
`thinking`; the chat directory and all other chats' message lists are
untouched. -/
theorem C2_send_fresh_session (u : ChatState) (t : Nat)
    (msgIdU msgIdT content ts : String)
    (hchat : u.currentChatId = none) (_hcontent : content ≠ "") :
    let tempId := "new-chat-" ++ toString t
    let u' := sendMessageSync true tempId msgIdU msgIdT content ts u
    u'.currentChatId = some tempId ∧
    (∃ t' : Nat, tempId = "new-chat-" ++ toString t') ∧
    mfindD u'.messages tempId [] =
      [{ id := msgIdU, chatId := tempId, role := .user, content := content,
         timestamp := ts, status := .sent, wasInterrupted := false },
       { id := msgIdT, chatId := tempId, role := .assistant, content := "",
         timestamp := ts, status := .thinking, wasInterrupted := false }] ∧
    u'.chats = u.chats ∧
    (∀ c, c ≠ tempId → mfind u'.messages c = mfind u.messages c) := by
  intro tempId u'
  have hu' : u' = sendOptimisticUpdate tempId msgIdU msgIdT content ts
      (sendNewChatUpdate tempId u) := by
    simp [u', sendMessageSync, hchat]
  refine ⟨?_, ?_, ?_, ?_, ?_⟩
  · rw [hu']
    simp [sendOptimisticUpdate, sendNewChatUpdate]
  · exact ⟨t, rfl⟩
  · rw [hu']
    simp [sendOptimisticUpdate, sendNewChatUpdate, mfindD, mkUserMessage,
      mkThinkingMessage]
  · rw [hu']
    simp [sendOptimisticUpdate, sendNewChatUpdate]
  · intro c hc
    rw [hu']
    simp only [sendOptimisticUpdate, sendNewChatUpdate]
    rw [mfind_minsert_ne _ _ _ _ hc, mfind_minsert_ne _ _ _ _ hc]

/-- Witness for C2 at a concrete fresh session. -/
theorem C2_send_fresh_session_witness :
    (let tempId := "new-chat-" ++ toString 0
     let u' := sendMessageSync true tempId "msg-u" "msg-t" "hi" "t0" initialChatState
     u'.currentChatId = some tempId ∧
     (∃ t' : Nat, tempId = "new-chat-" ++ toString t') ∧
     mfindD u'.messages tempId [] =
       [{ id := "msg-u", chatId := tempId, role := .user, content := "hi",
          timestamp := "t0", status := .sent, wasInterrupted := false },
        { id := "msg-t", chatId := tempId, role := .assistant, content := "",
          timestamp := "t0", status := .thinking, wasInterrupted := false }] ∧
     u'.chats = initialChatState.chats ∧
     (∀ c, c ≠ tempId → mfind u'.messages c = mfind initialChatState.messages c)) :=
  C2_send_fresh_session initialChatState 0 "msg-u" "msg-t" "hi" "t0" rfl (by decide)

/-- **C4.** Re-keying a temporary chat id to the server-assigned id is a
single state transition (`rekeyUpdate`) after which no message remains
under the temporary id, and the new id maps to exactly the messages
previously stored under the temporary id, in their original order, each
with its `chatId` field rewritten to the new id. -/
theorem C4_rekey_atomic (u : ChatState) (tempChatId : String) (newChat : Chat)
    (hne : tempChatId ≠ newChat.id) :
    let u' := rekeyUpdate tempChatId newChat u
    mfind u'.messages tempChatId = none ∧
    mfindD u'.messages newChat.id [] =
      (mfindD u.messages tempChatId []).map (fun m => { m with chatId := newChat.id }) ∧
    (∀ m ∈ mfindD u'.messages newChat.id [], m.chatId = newChat.id) := by
  intro u'
  refine ⟨?_, ?_, ?_⟩
  · show mfind (minsert (merase u.messages tempChatId) newChat.id _) tempChatId = none
    rw [mfind_minsert_ne _ _ _ _ hne, mfind_merase_self]
  · show mfindD (minsert (merase u.messages tempChatId) newChat.id _) newChat.id [] = _
    simp [mfindD]
  · intro m hm
    have : mfindD u'.messages newChat.id [] =
        (mfindD u.messages tempChatId []).map (fun m => { m with chatId := newChat.id }) := by
      show mfindD (minsert (merase u.messages tempChatId) newChat.id _) newChat.id [] = _
      simp [mfindD]
    rw [this] at hm
    obtain ⟨m₀, _, rfl⟩ := List.mem_map.mp hm
    rfl

/-- Witness for C4 on a one-message temporary chat. -/
theorem C4_rekey_atomic_witness :
    (let u := sendMessageSync true "new-chat-7" "msg-u" "msg-t" "hello" "t0"
                initialChatState
     let newChat : Chat :=
       { id := "chat-abc", userId := "user-001", title := "hello",
         lastMessage := some "hello", lastMessageAt := "t1", createdAt := "t1",
         messageCount := 1 }
     let u' := rekeyUpdate "new-chat-7" newChat u
     mfind u'.messages "new-chat-7" = none ∧
     mfindD u'.messages newChat.id [] =
       (mfindD u.messages "new-chat-7" []).map (fun m => { m with chatId := newChat.id }) ∧
     (∀ m ∈ mfindD u'.messages newChat.id [], m.chatId = newChat.id)) :=
  C4_rekey_atomic _ "new-chat-7"
    { id := "chat-abc", userId := "user-001", title := "hello",
      lastMessage := some "hello", lastMessageAt := "t1", createdAt := "t1",
      messageCount := 1 }
    (by decide)

/-- **C5.** Draft round-trip: `saveDraft(id, x); selectChat(other);
selectChat(id)` (each `selectChat` including its triggered `loadMessages`
round-trip) leaves `getDraft(id)` equal to exactly `x`; `selectChat` never
erases or replaces an existing draft of the selected chat; and `getDraft`
of a chat with no stored draft returns the empty string.  (`saveDraft`
ignores the empty chat id, so the round-trip is stated for `id ≠ ""`.) -/
theorem C5_draft_round_trip (u : ChatState) (chatId other x : String)
    (r1 r2 : MessagesResponse) (hid : chatId ≠ "") :
    (getDraft chatId
      (loadMessagesSuccess chatId none r2 (loadMessagesStart
        (selectChatUpdate chatId
          (loadMessagesSuccess other none r1 (loadMessagesStart
            (selectChatUpdate other (saveDraft chatId x u))))))) = x) ∧
    (∀ d, mfind u.draftMessages chatId = some d →
      mfind (selectChatUpdate chatId u).draftMessages chatId = some d) ∧
    (mfind u.draftMessages chatId = none → getDraft chatId u = "") := by
  refine ⟨?_, ?_, ?_⟩
  · simp only [getDraft, if_neg hid, loadMessagesSuccess, loadMessagesStart,
      selectChatUpdate, saveDraft, if_neg hid]
    rw [mfind_minsert_self]
    by_cases hoc : chatId = other
    · subst hoc
      rw [mfind_minsert_self, mfind_minsert_self]
      simp
    · rw [mfind_minsert_ne _ _ _ _ hoc, mfind_minsert_self]
      simp
  · intro d hd
    simp only [selectChatUpdate]
    rw [mfind_minsert_self, hd]
    simp
  · intro hd
    simp only [getDraft]
    split
    · rfl
    · rw [hd]
      rfl

/-- Witness for C5 at a concrete draft. -/
theorem C5_draft_round_trip_witness :
    (getDraft "chat-001"
      (loadMessagesSuccess "chat-001" none ⟨[], false, none⟩ (loadMessagesStart
        (selectChatUpdate "chat-001"
          (loadMessagesSuccess "chat-002" none ⟨[], false, none⟩ (loadMessagesStart
            (selectChatUpdate "chat-002"
              (saveDraft "chat-001" "x" initialChatState))))))) = "x") ∧
    (∀ d, mfind initialChatState.draftMessages "chat-001" = some d →
      mfind (selectChatUpdate "chat-001" initialChatState).draftMessages "chat-001" = some d) ∧
    (mfind initialChatState.draftMessages "chat-001" = none →
      getDraft "chat-001" initialChatState = "") :=
  C5_draft_round_trip initialChatState "chat-001" "chat-002" "x"
    ⟨[], false, none⟩ ⟨[], false, none⟩ (by decide)

/-- **C6.** Pagination accumulation: `loadMessages(id)` without a cursor
replaces the stored list with the returned page, and a subsequent
`loadMessages(id, cursor)` appends the older page, so the stored list's
length is the sum of the two pages' lengths and the per-chat `hasMore`
flag equals the second response's `hasMore` field. -/
theorem C6_pagination (u : ChatState) (chatId cur : String)
    (r1 r2 : MessagesResponse) :
    let u1 := loadMessagesSuccess chatId none r1 (loadMessagesStart u)
    let u2 := loadMessagesSuccess chatId (some cur) r2 (loadMessagesStart u1)
    (mfindD u2.messages chatId []).length = r1.messages.length + r2.messages.length ∧
    mfind u2.hasMoreMessages chatId = some r2.hasMore := by
  intro u1 u2
  constructor
  · simp [u2, u1, loadMessagesSuccess, loadMessagesStart, mfindD]
  · simp [u2, loadMessagesSuccess]

/-- **C3.** `cancelMessage` on a state with an active chat: if the last
message of the active chat is in the `thinking` phase, it ends with status
`interrupted`, empty content and `wasInterrupted = true`; if it is in the
`typing` phase (revealed partial text `t` present), it ends with status
`interrupted`, content `t` with one em-dash appended and
`wasInterrupted = true`; if neither phase is active, no message changes
and only the transient sending flags are cleared. -/
theorem C3_cancel_phases (u : ChatState) (chatId : String)
    (isInterruption : Bool) (newContent : Option String)
    (hc : u.currentChatId = some chatId) :
    let messages := mfindD u.messages chatId []
    let res := cancelMessageUpdate isInterruption newContent u
    (∀ last, messages.getLast? = some last → last.status = .thinking →
       (mfindD res.1.messages chatId []).getLast? =
         some { last with
                  content := "",
                  status := .interrupted,
                  wasInterrupted := true,
                  role := .assistant }) ∧
    (∀ last t, messages.getLast? = some last → last.status = .typing →
       u.typingMessage = some t → t ≠ "" →
       (mfindD res.1.messages chatId []).getLast? =
         some { last with
                  content := t ++ "—",
                  status := .interrupted,
                  wasInterrupted := true }) ∧
    ((∀ last, messages.getLast? = some last →
        last.status ≠ .thinking ∧ ¬(last.status = .typing ∧ strTruthy u.typingMessage)) →
      res.1 = { u with isSendingMessage := false, typingMessage := none } ∧
      res.2 = none) := by
  intro messages res
  refine ⟨?_, ?_, ?_⟩
  · intro last hlast hstatus
    have hres : res.1.messages = minsert u.messages chatId
        (messages.map (fun msg =>
          if msg.status = .thinking then
            { msg with content := "", status := .interrupted,
                       wasInterrupted := true, role := .assistant }
          else msg)) := by
      simp only [res, cancelMessageUpdate, hc]
      have hty : (messages.getLast?.any (fun m => m.status == .typing)) = false := by
        rw [hlast]
        simp [hstatus]
      have hth : (messages.getLast?.any (fun m => m.status == .thinking)) = true := by
        rw [hlast]
        simp [hstatus]
      simp only [messages] at hty hth
      rw [hty, hth]
      simp
    rw [hres]
    simp only [mfindD, mfind_minsert_self, Option.getD_some]
    simp only [messages]
    rw [List.getLast?_map, hlast]
    simp [hstatus]
  · intro last t hlast hstatus htm ht
    have htruthy : strTruthy u.typingMessage = true := by
      rw [htm]
      simpa [strTruthy] using ht
    have hres : res.1.messages = minsert u.messages chatId
        (messages.map (fun msg =>
          if msg.status = .typing then
            { msg with content := (u.typingMessage.getD "") ++ "—",
                       status := .interrupted, wasInterrupted := true }
          else msg)) := by
      simp only [res, cancelMessageUpdate, hc]
      have hty : (messages.getLast?.any (fun m => m.status == .typing)) = true := by
        rw [hlast]
        simp [hstatus]
      simp only [messages] at hty
      rw [hty, htruthy]
      simp [htruthy]
    rw [hres]
    simp only [mfindD, mfind_minsert_self, Option.getD_some]
    simp only [messages]
    rw [List.getLast?_map, hlast]
    simp [hstatus, htm]
  · intro hnone
    have hty : ((messages.getLast?.any (fun m => m.status == MessageStatus.typing))
        && strTruthy u.typingMessage) = false := by
      cases hft : strTruthy u.typingMessage with
      | false => simp
      | true =>
        rw [Bool.and_true]
        cases hl : messages.getLast? with
        | none => rfl
        | some last =>
          have h2 := (hnone last hl).2
          have hs : last.status ≠ MessageStatus.typing := by
            intro hs
            exact h2 ⟨hs, hft⟩
          simpa using hs
    have hth : (messages.getLast?.any (fun m => m.status == MessageStatus.thinking))
        = false := by
      cases hl : messages.getLast? with
      | none => rfl
      | some last =>
        have h1 := (hnone last hl).1
        simpa using h1
    simp only [messages] at hty hth
    constructor
    · show (cancelMessageUpdate isInterruption newContent u).1 = _
      simp only [cancelMessageUpdate, hc, hty, hth]
      simp
    · show (cancelMessageUpdate isInterruption newContent u).2 = none
      simp only [cancelMessageUpdate, hc, hty, hth]
      simp

/-- Witness for C3: a thinking-phase cancellation, a typing-phase
cancellation, and a no-phase cancellation at concrete states. -/
theorem C3_cancel_phases_witness :
    (let u := sendMessageSync true "new-chat-1" "msg-u" "msg-t" "q" "t0"
                initialChatState
     (mfindD (cancelMessageUpdate false none u).1.messages "new-chat-1" []).getLast? =
       some { id := "msg-t", chatId := "new-chat-1", role := .assistant,
              content := "", timestamp := "t0", status := .interrupted,
              wasInterrupted := true }) ∧
    (let aiMsg : Message :=
       { id := "ai-1", chatId := "new-chat-1", role := .assistant,
         content := "ok", timestamp := "t1", status := .sent }
     let u := typingRevealUpdate "ok" 0
       (sendResponseUpdate "new-chat-1"
         aiMsg
         (sendMessageSync true "new-chat-1" "msg-u" "msg-t" "q" "t0" initialChatState))
     (mfindD (cancelMessageUpdate false none u).1.messages "new-chat-1" []).getLast? =
       some { id := "ai-1", chatId := "new-chat-1", role := .assistant,
              content := "o—", timestamp := "t1", status := .interrupted,
              wasInterrupted := true }) ∧
    (let u := selectChatUpdate "chat-001" initialChatState
     (cancelMessageUpdate false none u).1 =
       { u with isSendingMessage := false, typingMessage := none } ∧
     (cancelMessageUpdate false none u).2 = none) := by
  refine ⟨?_, ?_, ?_⟩
  · have h := C3_cancel_phases
      (sendMessageSync true "new-chat-1" "msg-u" "msg-t" "q" "t0" initialChatState)
      "new-chat-1" false none rfl
    exact h.1 _ rfl rfl
  · have h := C3_cancel_phases
      (typingRevealUpdate "ok" 0
        (sendResponseUpdate "new-chat-1"
          { id := "ai-1", chatId := "new-chat-1", role := .assistant,
            content := "ok", timestamp := "t1", status := .sent }
          (sendMessageSync true "new-chat-1" "msg-u" "msg-t" "q" "t0" initialChatState)))
      "new-chat-1" false none rfl
    have h2 := h.2.1
      { id := "ai-1", chatId := "new-chat-1", role := .assistant,
        content := "ok", timestamp := "t1", status := .typing } "o"
      rfl rfl rfl (by decide)
    simpa using h2
  · have h := C3_cancel_phases (selectChatUpdate "chat-001" initialChatState)
      "chat-001" false none rfl
    exact h.2.2 (by intro last hlast; nomatch hlast)

/-- Reveal ticks (indices strictly below the text length) change only the
revealed partial text; the message map and active chat are untouched. -/
theorem runTicks_reveal_state (fullMessage messageId : String) (k : Nat)
    (s : ChatState) (hk : k ≤ fullMessage.length) :
    (runTicks fullMessage messageId k s).messages = s.messages ∧
    (runTicks fullMessage messageId k s).currentChatId = s.currentChatId := by
  induction k with
  | zero => exact ⟨rfl, rfl⟩
  | succ j ih =>
    obtain ⟨h1, h2⟩ := ih (Nat.le_of_succ_le hk)
    simp only [runTicks, animTick, if_pos (Nat.lt_of_succ_le hk), typingRevealUpdate]
    exact ⟨h1, h2⟩

/-- **C7.** On response arrival `sendMessage` removes the `thinking`
placeholder and appends an assistant message with status `typing` holding
the full response text; after `k` animation ticks (`1 ≤ k ≤ length`) the
revealed partial text is exactly the first `k` characters; and the tick
after the last character finalizes the message to status `sent` with the
full content and clears the revealed partial text. -/
theorem C7_response_typing_lifecycle (u : ChatState) (chatId : String)
    (aiResponse : Message) (hc : u.currentChatId = some chatId) :
    (mfindD (sendResponseUpdate chatId aiResponse u).messages chatId [] =
       (mfindD u.messages chatId []).filter
           (fun m => decide (m.status ≠ MessageStatus.thinking)) ++
         [{ aiResponse with chatId := chatId, status := MessageStatus.typing }]) ∧
    (∀ m ∈ mfindD (sendResponseUpdate chatId aiResponse u).messages chatId [],
       m.status ≠ MessageStatus.thinking) ∧
    (∀ k, 1 ≤ k → k ≤ aiResponse.content.length →
       (runTicks aiResponse.content aiResponse.id k
         (sendResponseUpdate chatId aiResponse u)).typingMessage =
         some (aiResponse.content.take k)) ∧
    ((runTicks aiResponse.content aiResponse.id (aiResponse.content.length + 1)
        (sendResponseUpdate chatId aiResponse u)).typingMessage = none ∧
     (runTicks aiResponse.content aiResponse.id (aiResponse.content.length + 1)
        (sendResponseUpdate chatId aiResponse u)).isSendingMessage = false ∧
     (mfindD (runTicks aiResponse.content aiResponse.id (aiResponse.content.length + 1)
        (sendResponseUpdate chatId aiResponse u)).messages chatId []).getLast? =
       some { aiResponse with chatId := chatId, status := MessageStatus.sent }) := by
  have ha : mfindD (sendResponseUpdate chatId aiResponse u).messages chatId [] =
      (mfindD u.messages chatId []).filter
          (fun m => decide (m.status ≠ MessageStatus.thinking)) ++
        [{ aiResponse with chatId := chatId, status := MessageStatus.typing }] := by
    simp [sendResponseUpdate, mfindD]
  refine ⟨ha, ?_, ?_, ?_⟩
  · intro m hm
    rw [ha] at hm
    rcases List.mem_append.mp hm with hm | hm
    · exact of_decide_eq_true (List.mem_filter.mp hm).2
    · rcases List.mem_singleton.mp hm with rfl
      simp
  · intro k hk1 hk2
    cases k with
    | zero => exact absurd hk1 (by simp)
    | succ j =>
      simp only [runTicks, animTick, if_pos (Nat.lt_of_succ_le hk2),
        typingRevealUpdate]
  · obtain ⟨hmsgs, hcur⟩ := runTicks_reveal_state aiResponse.content aiResponse.id
      aiResponse.content.length (sendResponseUpdate chatId aiResponse u) (le_refl _)
    have hcur' : (runTicks aiResponse.content aiResponse.id aiResponse.content.length
        (sendResponseUpdate chatId aiResponse u)).currentChatId = some chatId := by
      rw [hcur]
      simpa [sendResponseUpdate] using hc
    have key : runTicks aiResponse.content aiResponse.id (aiResponse.content.length + 1)
        (sendResponseUpdate chatId aiResponse u) =
        typingCompleteUpdate aiResponse.content aiResponse.id
          (runTicks aiResponse.content aiResponse.id aiResponse.content.length
            (sendResponseUpdate chatId aiResponse u)) := by
      simp only [runTicks, animTick, if_neg (Nat.lt_irrefl _)]
    rw [key]
    have hfind : mfindD (runTicks aiResponse.content aiResponse.id
        aiResponse.content.length (sendResponseUpdate chatId aiResponse u)).messages
        chatId [] =
        (mfindD u.messages chatId []).filter
            (fun m => decide (m.status ≠ MessageStatus.thinking)) ++
          [{ aiResponse with chatId := chatId, status := MessageStatus.typing }] := by
      simp only [mfindD, hmsgs]
      exact ha
    refine ⟨?_, ?_, ?_⟩
    · simp [typingCompleteUpdate, hcur']
    · simp [typingCompleteUpdate, hcur']
    · simp only [typingCompleteUpdate, hcur']
      simp only [mfindD, mfind_minsert_self, Option.getD_some]
      rw [show ((mfind (runTicks aiResponse.content aiResponse.id
          aiResponse.content.length (sendResponseUpdate chatId aiResponse u)).messages
          chatId).getD []) = _ from hfind]
      simp

/-- Witness for C7 at a concrete two-character response. -/
theorem C7_response_typing_lifecycle_witness :
    (let u := sendMessageSync true "new-chat-1" "msg-u" "msg-t" "q" "t0"
                initialChatState
     let aiResponse : Message :=
       { id := "ai-1", chatId := "server-chat", role := .assistant,
         content := "ok", timestamp := "t1", status := .sent }
     (mfindD (sendResponseUpdate "new-chat-1" aiResponse u).messages "new-chat-1" [] =
       (mfindD u.messages "new-chat-1" []).filter
           (fun m => decide (m.status ≠ MessageStatus.thinking)) ++
         [{ aiResponse with chatId := "new-chat-1", status := MessageStatus.typing }]) ∧
     (∀ m ∈ mfindD (sendResponseUpdate "new-chat-1" aiResponse u).messages "new-chat-1" [],
       m.status ≠ MessageStatus.thinking) ∧
     (∀ k, 1 ≤ k → k ≤ aiResponse.content.length →
       (runTicks aiResponse.content aiResponse.id k
         (sendResponseUpdate "new-chat-1" aiResponse u)).typingMessage =
         some (aiResponse.content.take k)) ∧
     ((runTicks aiResponse.content aiResponse.id (aiResponse.content.length + 1)
        (sendResponseUpdate "new-chat-1" aiResponse u)).typingMessage = none ∧
      (runTicks aiResponse.content aiResponse.id (aiResponse.content.length + 1)
        (sendResponseUpdate "new-chat-1" aiResponse u)).isSendingMessage = false ∧
      (mfindD (runTicks aiResponse.content aiResponse.id (aiResponse.content.length + 1)
        (sendResponseUpdate "new-chat-1" aiResponse u)).messages "new-chat-1" []).getLast? =
       some { aiResponse with chatId := "new-chat-1", status := MessageStatus.sent })) :=
  C7_response_typing_lifecycle
    (sendMessageSync true "new-chat-1" "msg-u" "msg-t" "q" "t0" initialChatState)
    "new-chat-1"
    { id := "ai-1", chatId := "server-chat", role := .assistant,
      content := "ok", timestamp := "t1", status := .sent }
    rfl

/-- **C8 counterexample.** When the backend's `deleteChat` resolves with
`success = false`, the source performs no state update at all
(`ChatContext.tsx` line 581 has no `else` branch), so contrary to the
claim the deleting flag stays `true` and no error is surfaced. -/
theorem C8_counterexample :
    (deleteChatResolve { success := false, remainingChats := [] } "chat-001"
        (deleteChatStart initialChatState)).isDeletingChat = true ∧
    (deleteChatResolve { success := false, remainingChats := [] } "chat-001"
        (deleteChatStart initialChatState)).error = none :=
  ⟨rfl, rfl⟩

/-- **C8 (amended).** If `deleteChat`'s backend call rejects, afterwards
the deleting flag is `false`, the error is surfaced, and the chat
directory, messages, drafts and pagination entries are all unchanged; if
the backend instead resolves with `success = false`, the data is likewise
unchanged but the deleting flag remains `true` and no error is surfaced. -/
theorem C8_delete_failure (u : ChatState) (chatId errMsg : String) :
    ((deleteChatFailure errMsg (deleteChatStart u)).isDeletingChat = false ∧
     (deleteChatFailure errMsg (deleteChatStart u)).error = some errMsg ∧
     (deleteChatFailure errMsg (deleteChatStart u)).chats = u.chats ∧
     (deleteChatFailure errMsg (deleteChatStart u)).messages = u.messages ∧
     (deleteChatFailure errMsg (deleteChatStart u)).draftMessages = u.draftMessages ∧
     (deleteChatFailure errMsg (deleteChatStart u)).hasMoreMessages = u.hasMoreMessages ∧
     (deleteChatFailure errMsg (deleteChatStart u)).currentChatId = u.currentChatId) ∧
    (∀ result : DeleteResult, result.success = false →
     (deleteChatResolve result chatId (deleteChatStart u)).isDeletingChat = true ∧
     (deleteChatResolve result chatId (deleteChatStart u)).error = none ∧
     (deleteChatResolve result chatId (deleteChatStart u)).chats = u.chats ∧
     (deleteChatResolve result chatId (deleteChatStart u)).messages = u.messages ∧
     (deleteChatResolve result chatId (deleteChatStart u)).draftMessages = u.draftMessages ∧
     (deleteChatResolve result chatId (deleteChatStart u)).hasMoreMessages
       = u.hasMoreMessages ∧
     (deleteChatResolve result chatId (deleteChatStart u)).currentChatId
       = u.currentChatId) := by
  constructor
  · simp [deleteChatFailure, deleteChatStart]
  · intro result hres
    simp [deleteChatResolve, hres, deleteChatStart]

/-- Witness for the amended C8 at a concrete state. -/
theorem C8_delete_failure_witness :
    (((deleteChatFailure "boom" (deleteChatStart initialChatState)).isDeletingChat = false ∧
      (deleteChatFailure "boom" (deleteChatStart initialChatState)).error = some "boom" ∧
      (deleteChatFailure "boom" (deleteChatStart initialChatState)).chats
        = initialChatState.chats ∧
      (deleteChatFailure "boom" (deleteChatStart initialChatState)).messages
        = initialChatState.messages ∧
      (deleteChatFailure "boom" (deleteChatStart initialChatState)).draftMessages
        = initialChatState.draftMessages ∧
      (deleteChatFailure "boom" (deleteChatStart initialChatState)).hasMoreMessages
        = initialChatState.hasMoreMessages ∧
      (deleteChatFailure "boom" (deleteChatStart initialChatState)).currentChatId
        = initialChatState.currentChatId) ∧
     (∀ result : DeleteResult, result.success = false →
      (deleteChatResolve result "chat-001" (deleteChatStart initialChatState)).isDeletingChat
        = true ∧
      (deleteChatResolve result "chat-001" (deleteChatStart initialChatState)).error = none ∧
      (deleteChatResolve result "chat-001" (deleteChatStart initialChatState)).chats
        = initialChatState.chats ∧
      (deleteChatResolve result "chat-001" (deleteChatStart initialChatState)).messages
        = initialChatState.messages ∧
      (deleteChatResolve result "chat-001" (deleteChatStart initialChatState)).draftMessages
        = initialChatState.draftMessages ∧
      (deleteChatResolve result "chat-001" (deleteChatStart initialChatState)).hasMoreMessages
        = initialChatState.hasMoreMessages ∧
      (deleteChatResolve result "chat-001" (deleteChatStart initialChatState)).currentChatId
        = initialChatState.currentChatId)) :=
  C8_delete_failure initialChatState "chat-001" "boom"

/-- **C9 counterexample.** After a failed send the typed text is *not*
restored: the optimistic update clears the per-chat draft and the failure
path leaves it empty, so the draft holds `""` rather than the sent
content.  (The input component's restoring `catch` never runs because
`sendMessage` swallows the error and its promise resolves normally.) -/
theorem C9_counterexample :
    (sendErrorUpdate "chat-001" "Network error"
        (sendMessageSync true "new-chat-0" "msg-u" "msg-t" "hello" "t0"
          (saveDraft "chat-001" "hello"
            (selectChatUpdate "chat-001" initialChatState)))).error
      = some "Network error" ∧
    getDraft "chat-001"
      (sendErrorUpdate "chat-001" "Network error"
        (sendMessageSync true "new-chat-0" "msg-u" "msg-t" "hello" "t0"
          (saveDraft "chat-001" "hello"
            (selectChatUpdate "chat-001" initialChatState)))) = "" ∧
    getDraft "chat-001"
      (sendErrorUpdate "chat-001" "Network error"
        (sendMessageSync true "new-chat-0" "msg-u" "msg-t" "hello" "t0"
          (saveDraft "chat-001" "hello"
            (selectChatUpdate "chat-001" initialChatState)))) ≠ "hello" := by
  refine ⟨rfl, rfl, ?_⟩
  decide

/-- **C9 (amended).** When the backend call of a send fails with a
non-abort error, the session error field is set to that error, every
`thinking` placeholder is removed from the chat's list (the optimistic
user message stays), and the sending flag is cleared — but the per-chat
draft is left empty rather than restored to the sent content: the
optimistic update cleared it, the error path does not write it back, and
the input component's restoring `catch` is unreachable because
`sendMessage` catches all errors without rethrowing. -/
theorem C9_send_failure (u : ChatState) (chatId msgIdU msgIdT content ts errMsg : String)
    (hc : u.currentChatId = some chatId) :
    ((sendErrorUpdate chatId errMsg
        (sendMessageSync true "" msgIdU msgIdT content ts u)).error = some errMsg) ∧
    (mfindD (sendErrorUpdate chatId errMsg
        (sendMessageSync true "" msgIdU msgIdT content ts u)).messages chatId [] =
      (mfindD u.messages chatId []).filter
          (fun m => decide (m.status ≠ MessageStatus.thinking)) ++
        [mkUserMessage msgIdU chatId content ts]) ∧
    (∀ m ∈ mfindD (sendErrorUpdate chatId errMsg
        (sendMessageSync true "" msgIdU msgIdT content ts u)).messages chatId [],
      m.status ≠ MessageStatus.thinking) ∧
    (getDraft chatId (sendErrorUpdate chatId errMsg
        (sendMessageSync true "" msgIdU msgIdT content ts u)) = "") ∧
    ((sendErrorUpdate chatId errMsg
        (sendMessageSync true "" msgIdU msgIdT content ts u)).isSendingMessage = false) := by
  have hsync : sendMessageSync true "" msgIdU msgIdT content ts u =
      sendOptimisticUpdate chatId msgIdU msgIdT content ts u := by
    simp [sendMessageSync, hc]
  have hfilter : mfindD (sendErrorUpdate chatId errMsg
      (sendMessageSync true "" msgIdU msgIdT content ts u)).messages chatId [] =
      (mfindD u.messages chatId []).filter
          (fun m => decide (m.status ≠ MessageStatus.thinking)) ++
        [mkUserMessage msgIdU chatId content ts] := by
    rw [hsync]
    simp [sendErrorUpdate, sendOptimisticUpdate, mfindD, List.filter_append,
      mkUserMessage, mkThinkingMessage]
  refine ⟨?_, hfilter, ?_, ?_, ?_⟩
  · rw [hsync]
    simp [sendErrorUpdate]
  · intro m hm
    rw [hfilter] at hm
    rcases List.mem_append.mp hm with hm | hm
    · exact of_decide_eq_true (List.mem_filter.mp hm).2
    · rcases List.mem_singleton.mp hm with rfl
      simp [mkUserMessage]
  · rw [hsync]
    by_cases hid : chatId = ""
    · simp [getDraft, hid]
    · simp [getDraft, hid, sendErrorUpdate, sendOptimisticUpdate]
  · rw [hsync]
    simp [sendErrorUpdate]

/-- Witness for the amended C9 at a concrete failed send. -/
theorem C9_send_failure_witness :
    (((sendErrorUpdate "chat-001" "boom"
        (sendMessageSync true "" "msg-u" "msg-t" "hi" "t0"
          (selectChatUpdate "chat-001" initialChatState))).error = some "boom") ∧
     (mfindD (sendErrorUpdate "chat-001" "boom"
        (sendMessageSync true "" "msg-u" "msg-t" "hi" "t0"
          (selectChatUpdate "chat-001" initialChatState))).messages "chat-001" [] =
       (mfindD (selectChatUpdate "chat-001" initialChatState).messages "chat-001" []).filter
           (fun m => decide (m.status ≠ MessageStatus.thinking)) ++
         [mkUserMessage "msg-u" "chat-001" "hi" "t0"]) ∧
     (∀ m ∈ mfindD (sendErrorUpdate "chat-001" "boom"
        (sendMessageSync true "" "msg-u" "msg-t" "hi" "t0"
          (selectChatUpdate "chat-001" initialChatState))).messages "chat-001" [],
       m.status ≠ MessageStatus.thinking) ∧
     (getDraft "chat-001" (sendErrorUpdate "chat-001" "boom"
        (sendMessageSync true "" "msg-u" "msg-t" "hi" "t0"
          (selectChatUpdate "chat-001" initialChatState))) = "") ∧
     ((sendErrorUpdate "chat-001" "boom"
        (sendMessageSync true "" "msg-u" "msg-t" "hi" "t0"
          (selectChatUpdate "chat-001" initialChatState))).isSendingMessage = false)) :=
  C9_send_failure (selectChatUpdate "chat-001" initialChatState)
    "chat-001" "msg-u" "msg-t" "hi" "t0" "boom" rfl

/-- **C10.** If `cancelMessage` runs while the last message of the active
chat has status `typing` but the revealed partial text (`typingMessage`) is
null, neither branch fires: the state change is exactly clearing the
transient sending flag and the (already null) revealed text, the message
list is untouched (nothing is marked interrupted), and no backend
notification is produced. -/
theorem C10_cancel_typing_null (u : ChatState) (chatId : String)
    (isInterruption : Bool) (newContent : Option String) (last : Message)
    (hc : u.currentChatId = some chatId)
    (hlast : (mfindD u.messages chatId []).getLast? = some last)
    (hstatus : last.status = .typing)
    (htm : u.typingMessage = none) :
    cancelMessageUpdate isInterruption newContent u =
      ({ u with isSendingMessage := false, typingMessage := none }, none) := by
  simp only [cancelMessageUpdate, hc]
  rw [hlast]
  have hth : (last.status == MessageStatus.thinking) = false := by
    simp [hstatus]
  simp [htm, strTruthy, hth]

/-- Witness for C10: response arrived (status `typing`) but no character
revealed yet. -/
theorem C10_cancel_typing_null_witness :
    (let aiMsg : Message :=
       { id := "ai-1", chatId := "new-chat-1", role := .assistant,
         content := "ok", timestamp := "t1", status := .sent }
     let u := sendResponseUpdate "new-chat-1" aiMsg
       (sendMessageSync true "new-chat-1" "msg-u" "msg-t" "q" "t0" initialChatState)
     cancelMessageUpdate true (some "next") u =
       ({ u with isSendingMessage := false, typingMessage := none }, none)) :=
  C10_cancel_typing_null _ "new-chat-1" true (some "next")
    { id := "ai-1", chatId := "new-chat-1", role := .assistant,
      content := "ok", timestamp := "t1", status := .typing }
    rfl (by decide) rfl rfl

/-! ## Counting lemmas for the in-flight invariant -/

theorem countP_map_le_of_imp {α : Type} (p : α → Bool) (f : α → α) (l : List α)
    (h : ∀ a, p (f a) = true → p a = true) :
    (l.map f).countP p ≤ l.countP p := by
  induction l with
  | nil => simp
  | cons a l ih =>
    simp only [List.map_cons, List.countP_cons]
    refine Nat.add_le_add ih ?_
    by_cases hpa : p (f a) = true
    · rw [if_pos hpa, if_pos (h a hpa)]
    · rw [if_neg hpa]
      omega

theorem countP_map_eq_of_pres {α : Type} (p : α → Bool) (f : α → α) (l : List α)
    (h : ∀ a, p (f a) = p a) :
    (l.map f).countP p = l.countP p := by
  induction l with
  | nil => rfl
  | cons a l ih =>
    simp only [List.map_cons, List.countP_cons, ih, h a]

theorem countP_filter_le {α : Type} (p q : α → Bool) (l : List α) :
    (l.filter q).countP p ≤ l.countP p := by
  rw [List.countP_filter]
  refine List.countP_mono_left ?_
  intro a _ h
  exact (Bool.and_eq_true_iff.mp h).1

theorem typingCount_le_inFlightCount (l : List Message) :
    typingCount l ≤ inFlightCount l := by
  refine List.countP_mono_left ?_
  intro m _ hm
  simp only [typingB] at hm
  simp [inFlightB, hm]

theorem inFlightCount_append (l₁ l₂ : List Message) :
    inFlightCount (l₁ ++ l₂) = inFlightCount l₁ + inFlightCount l₂ :=
  List.countP_append ..

theorem typingCount_append (l₁ l₂ : List Message) :
    typingCount (l₁ ++ l₂) = typingCount l₁ + typingCount l₂ :=
  List.countP_append ..

/-- Removing the thinking messages from a list leaves exactly its typing
messages among the in-flight ones. -/
theorem inFlightCount_filter_ne_thinking (l : List Message) :
    inFlightCount (l.filter (fun m => decide (m.status ≠ MessageStatus.thinking)))
      = typingCount l := by
  simp only [inFlightCount, typingCount]
  rw [List.countP_filter]
  refine List.countP_congr ?_
  intro m _
  cases hst : m.status <;> simp [inFlightB, typingB, hst]

/-- Removing the thinking messages preserves the typing count. -/
theorem typingCount_filter_ne_thinking (l : List Message) :
    typingCount (l.filter (fun m => decide (m.status ≠ MessageStatus.thinking)))
      = typingCount l := by
  simp only [typingCount]
  rw [List.countP_filter]
  refine List.countP_congr ?_
  intro m _
  cases hst : m.status <;> simp [typingB, hst]

theorem inFlightCount_eq_zero_of_all_sent (l : List Message)
    (h : ∀ m ∈ l, m.status = MessageStatus.sent) : inFlightCount l = 0 := by
  refine List.countP_eq_zero.mpr ?_
  intro m hm
  simp [inFlightB, h m hm]

theorem typingCount_eq_zero_of_all_sent (l : List Message)
    (h : ∀ m ∈ l, m.status = MessageStatus.sent) : typingCount l = 0 := by
  refine List.countP_eq_zero.mpr ?_
  intro m hm
  simp [typingB, h m hm]

theorem mfindD_minsert {α : Type} (m : SMap α) (k k' : String) (v d : α) :
    mfindD (minsert m k v) k' d = if k' = k then v else mfindD m k' d := by
  by_cases h : k' = k
  · simp [mfindD, h]
  · simp only [mfindD, if_neg h]
    rw [mfind_minsert_ne _ _ _ _ h]

theorem mfindD_merase {α : Type} (m : SMap α) (k k' : String) (d : α) :
    mfindD (merase m k) k' d = if k' = k then d else mfindD m k' d := by
  by_cases h : k' = k
  · simp [mfindD, h]
  · simp only [mfindD, if_neg h]
    rw [mfind_merase_ne _ _ _ h]

/-- Every message produced by the mock message generator has status `sent`
(`mockResponses.ts` lines 92-104). -/
theorem generateMockMessages_all_sent (chatId : String) (count baseTime : Nat) :
    ∀ m ∈ generateMockMessages chatId count baseTime,
      m.status = MessageStatus.sent := by
  intro m hm
  simp only [generateMockMessages, List.mem_reverse, List.mem_map,
    List.mem_range] at hm
  obtain ⟨i, _, rfl⟩ := hm
  rfl

/-- Every message in a mock `getMessages` page has status `sent`. -/
theorem mockGetMessages_all_sent (chatId : String) (cursor : Option Nat)
    (baseTime limit : Nat) :
    ∀ m ∈ (mockGetMessages chatId cursor baseTime limit).messages,
      m.status = MessageStatus.sent := by
  intro m hm
  simp only [mockGetMessages] at hm
  exact generateMockMessages_all_sent chatId 30 baseTime m
    (List.mem_of_mem_drop (List.mem_of_mem_take hm))

/-- The message map produced by `cancelMessage` is either unchanged or the
active chat's list mapped by a function that never produces an in-flight
or typing message out of one that was not. -/
theorem cancelMessageUpdate_messages_shape (isInterruption : Bool)
    (newContent : Option String) (u : ChatState) :
    (cancelMessageUpdate isInterruption newContent u).1.messages = u.messages ∨
    ∃ chatId f,
      (∀ m : Message, inFlightB (f m) = true → inFlightB m = true) ∧
      (∀ m : Message, typingB (f m) = true → typingB m = true) ∧
      (cancelMessageUpdate isInterruption newContent u).1.messages =
        minsert u.messages chatId ((mfindD u.messages chatId []).map f) := by
  have htypingf : ∀ (c : String),
      (∀ m : Message, inFlightB (if m.status = MessageStatus.typing then
        { m with content := c, status := MessageStatus.interrupted,
                 wasInterrupted := true } else m) = true → inFlightB m = true) := by
    intro c m hm
    by_cases hms : m.status = MessageStatus.typing
    · rw [if_pos hms] at hm
      simp [inFlightB] at hm
    · rwa [if_neg hms] at hm
  have htypingf' : ∀ (c : String),
      (∀ m : Message, typingB (if m.status = MessageStatus.typing then
        { m with content := c, status := MessageStatus.interrupted,
                 wasInterrupted := true } else m) = true → typingB m = true) := by
    intro c m hm
    by_cases hms : m.status = MessageStatus.typing
    · rw [if_pos hms] at hm
      simp [typingB] at hm
    · rwa [if_neg hms] at hm
  have hthinkf :
      (∀ m : Message, inFlightB (if m.status = MessageStatus.thinking then
        { m with content := "", status := MessageStatus.interrupted,
                 wasInterrupted := true, role := Role.assistant } else m) = true →
        inFlightB m = true) := by
    intro m hm
    by_cases hms : m.status = MessageStatus.thinking
    · rw [if_pos hms] at hm
      simp [inFlightB] at hm
    · rwa [if_neg hms] at hm
  have hthinkf' :
      (∀ m : Message, typingB (if m.status = MessageStatus.thinking then
        { m with content := "", status := MessageStatus.interrupted,
                 wasInterrupted := true, role := Role.assistant } else m) = true →
        typingB m = true) := by
    intro m hm
    by_cases hms : m.status = MessageStatus.thinking
    · rw [if_pos hms] at hm
      simp [typingB] at hm
    · rwa [if_neg hms] at hm
  cases hcur : u.currentChatId with
  | none =>
    left
    simp [cancelMessageUpdate, hcur]
  | some chatId =>
    simp only [cancelMessageUpdate, hcur]
    split
    · split
      · right
        exact ⟨chatId, _, htypingf _, htypingf' _, rfl⟩
      · split
        · right
          exact ⟨chatId, _, hthinkf, hthinkf', rfl⟩
        · left
          rfl
    · split
      · right
        exact ⟨chatId, _, htypingf _, htypingf' _, rfl⟩
      · split
        · right
          exact ⟨chatId, _, hthinkf, hthinkf', rfl⟩
        · left
          rfl

/-- The function applied by the typing-animation completion never turns a
non-in-flight message into an in-flight one. -/
theorem completion_map_le (fullMessage messageId : String) :
    ∀ m : Message, inFlightB (if m.id = messageId then
      { m with content := fullMessage, status := MessageStatus.sent } else m) = true →
      inFlightB m = true := by
  intro m hm
  by_cases hid : m.id = messageId
  · rw [if_pos hid] at hm
    simp [inFlightB] at hm
  · rwa [if_neg hid] at hm

theorem completion_map_le' (fullMessage messageId : String) :
    ∀ m : Message, typingB (if m.id = messageId then
      { m with content := fullMessage, status := MessageStatus.sent } else m) = true →
      typingB m = true := by
  intro m hm
  by_cases hid : m.id = messageId
  · rw [if_pos hid] at hm
    simp [typingB] at hm
  · rwa [if_neg hid] at hm

/-- One guarded step preserves the system invariant. -/
theorem step_preserves_inv (s s' : SysState) (hstep : Step true s s')
    (hinv : SysInv s) : SysInv s' := by
  obtain ⟨hone, hpend⟩ := hinv
  cases hstep with
  | selectChat u p chatId =>
    refine ⟨?_, ?_⟩
    · intro c
      simp only [selectChatUpdate]
      rw [mfindD_minsert]
      by_cases hc : c = chatId
      · simp [hc, inFlightCount]
      · rw [if_neg hc]
        exact hone c
    · intro c hc
      nomatch hc
  | createNewChat u p t =>
    refine ⟨?_, ?_⟩
    · intro c
      simp only [createNewChatUpdate]
      rw [mfindD_minsert]
      by_cases hc : c = "new-chat-" ++ toString t
      · simp [hc, inFlightCount]
      · rw [if_neg hc]
        exact hone c
    · intro c hc
      nomatch hc
  | sendNewChat u p t h =>
    refine ⟨?_, ?_⟩
    · intro c
      simp only [sendNewChatUpdate]
      rw [mfindD_minsert]
      by_cases hc : c = "new-chat-" ++ toString t
      · simp [hc, inFlightCount]
      · rw [if_neg hc]
        exact hone c
    · intro c hc
      simp only [sendNewChatUpdate]
      rw [mfindD_minsert]
      by_cases hcc : c = "new-chat-" ++ toString t
      · simp [hcc, typingCount]
      · rw [if_neg hcc]
        exact hpend c hc
  | sendOptimistic u p chatId msgIdU msgIdT content ts h hguard =>
    have h0 : inFlightCount (mfindD u.messages chatId []) = 0 := hguard rfl
    have hpair : inFlightCount
        [mkUserMessage msgIdU chatId content ts,
         mkThinkingMessage msgIdT chatId ts] = 1 := rfl
    have hpairT : typingCount
        [mkUserMessage msgIdU chatId content ts,
         mkThinkingMessage msgIdT chatId ts] = 0 := rfl
    refine ⟨?_, ?_⟩
    · intro c
      simp only [sendOptimisticUpdate]
      rw [mfindD_minsert]
      by_cases hc : c = chatId
      · rw [if_pos hc, inFlightCount_append, h0, hpair]
      · rw [if_neg hc]
        exact hone c
    · intro c hc
      injection hc with hc
      subst hc
      simp only [sendOptimisticUpdate]
      rw [mfindD_minsert, if_pos rfl, typingCount_append, hpairT]
      have hch := typingCount_le_inFlightCount (mfindD u.messages chatId [])
      omega
  | sendRekey u tempChatId newChat hp =>
    have hpres : ∀ m : Message,
        inFlightB { m with chatId := newChat.id } = inFlightB m := fun _ => rfl
    have hpresT : ∀ m : Message,
        typingB { m with chatId := newChat.id } = typingB m := fun _ => rfl
    refine ⟨?_, ?_⟩
    · intro c
      simp only [rekeyUpdate]
      rw [mfindD_minsert]
      by_cases hc : c = newChat.id
      · rw [if_pos hc]
        calc inFlightCount ((mfindD u.messages tempChatId []).map
              (fun m => { m with chatId := newChat.id }))
            = inFlightCount (mfindD u.messages tempChatId []) :=
              countP_map_eq_of_pres _ _ _ hpres
          _ ≤ 1 := hone tempChatId
      · rw [if_neg hc, mfindD_merase]
        by_cases hct : c = tempChatId
        · simp [hct, inFlightCount]
        · rw [if_neg hct]
          exact hone c
    · intro c hc
      injection hc with hc
      subst hc
      simp only [rekeyUpdate]
      rw [mfindD_minsert, if_pos rfl]
      calc typingCount ((mfindD u.messages tempChatId []).map
            (fun m => { m with chatId := newChat.id }))
          = typingCount (mfindD u.messages tempChatId []) :=
            countP_map_eq_of_pres _ _ _ hpresT
        _ = 0 := hpend tempChatId rfl
  | sendResponse u chatId aiResponse =>
    refine ⟨?_, ?_⟩
    · intro c
      simp only [sendResponseUpdate]
      rw [mfindD_minsert]
      by_cases hc : c = chatId
      · rw [if_pos hc, inFlightCount_append, inFlightCount_filter_ne_thinking]
        have h0 : typingCount (mfindD u.messages chatId []) = 0 := hpend chatId rfl
        have h1 : inFlightCount
            [{ aiResponse with chatId := chatId, status := MessageStatus.typing }]
            = 1 := rfl
        rw [h0, h1]
      · rw [if_neg hc]
        exact hone c
    · intro c hc
      nomatch hc
  | sendAbort u p errorChatId =>
    refine ⟨?_, ?_⟩
    · intro c
      simp only [sendAbortUpdate]
      rw [mfindD_minsert]
      by_cases hc : c = errorChatId
      · rw [if_pos hc, inFlightCount_filter_ne_thinking]
        exact le_trans (typingCount_le_inFlightCount _) (hone errorChatId)
      · rw [if_neg hc]
        exact hone c
    · intro c hc
      simp only [sendAbortUpdate]
      rw [mfindD_minsert]
      by_cases hc' : c = errorChatId
      · rw [if_pos hc', typingCount_filter_ne_thinking]
        have := hpend c hc
        rwa [hc'] at this
      · rw [if_neg hc']
        exact hpend c hc
  | sendError u p errorChatId errMsg =>
    refine ⟨?_, ?_⟩
    · intro c
      simp only [sendErrorUpdate]
      rw [mfindD_minsert]
      by_cases hc : c = errorChatId
      · rw [if_pos hc, inFlightCount_filter_ne_thinking]
        exact le_trans (typingCount_le_inFlightCount _) (hone errorChatId)
      · rw [if_neg hc]
        exact hone c
    · intro c hc
      simp only [sendErrorUpdate]
      rw [mfindD_minsert]
      by_cases hc' : c = errorChatId
      · rw [if_pos hc', typingCount_filter_ne_thinking]
        have := hpend c hc
        rwa [hc'] at this
      · rw [if_neg hc']
        exact hpend c hc
  | cancel u p isInterruption newContent =>
    refine ⟨?_, ?_⟩
    · intro c
      rcases cancelMessageUpdate_messages_shape isInterruption newContent u with
        hsame | ⟨chatId, f, hf, _, hmap⟩
      · rw [hsame]
        exact hone c
      · rw [hmap, mfindD_minsert]
        by_cases hc : c = chatId
        · rw [if_pos hc]
          exact le_trans (countP_map_le_of_imp _ _ _ hf) (hone chatId)
        · rw [if_neg hc]
          exact hone c
    · intro c hc
      nomatch hc
  | typingReveal u p fullMessage currentIndex h =>
    exact ⟨fun c => hone c, fun c hc => hpend c hc⟩
  | typingComplete u p fullMessage messageId =>
    cases hcur : u.currentChatId with
    | none =>
      refine ⟨?_, ?_⟩
      · intro c
        simp only [typingCompleteUpdate, hcur]
        exact hone c
      · intro c hc
        simp only [typingCompleteUpdate, hcur]
        exact hpend c hc
    | some cid =>
      refine ⟨?_, ?_⟩
      · intro c
        simp only [typingCompleteUpdate, hcur]
        rw [mfindD_minsert]
        by_cases hc : c = cid
        · rw [if_pos hc]
          exact le_trans
            (countP_map_le_of_imp _ _ _ (completion_map_le fullMessage messageId))
            (hone cid)
        · rw [if_neg hc]
          exact hone c
      · intro c hc
        simp only [typingCompleteUpdate, hcur]
        rw [mfindD_minsert]
        by_cases hc' : c = cid
        · rw [if_pos hc']
          have h0 : typingCount (mfindD u.messages cid []) = 0 := by
            have := hpend c hc
            rwa [hc'] at this
          have := countP_map_le_of_imp typingB
            (fun m => if m.id = messageId then
              { m with content := fullMessage, status := MessageStatus.sent } else m)
            (mfindD u.messages cid []) (completion_map_le' fullMessage messageId)
          simp only [typingCount] at h0 ⊢
          omega
        · rw [if_neg hc']
          exact hpend c hc
  | loadStart u p =>
    exact ⟨fun c => hone c, fun c hc => hpend c hc⟩
  | loadSuccess u p chatId cursor baseTime =>
    have hpage0 : inFlightCount
        (mockGetMessages chatId cursor baseTime).messages = 0 :=
      inFlightCount_eq_zero_of_all_sent _ (mockGetMessages_all_sent chatId cursor baseTime 10)
    have hpage0T : typingCount
        (mockGetMessages chatId cursor baseTime).messages = 0 :=
      typingCount_eq_zero_of_all_sent _ (mockGetMessages_all_sent chatId cursor baseTime 10)
    refine ⟨?_, ?_⟩
    · intro c
      simp only [loadMessagesSuccess]
      rw [mfindD_minsert]
      by_cases hc : c = chatId
      · rw [if_pos hc]
        cases cursor with
        | none =>
          show inFlightCount (mockGetMessages chatId none baseTime).messages ≤ 1
          omega
        | some n =>
          show inFlightCount (mfindD u.messages chatId [] ++
            (mockGetMessages chatId (some n) baseTime).messages) ≤ 1
          rw [inFlightCount_append, hpage0]
          have h1 : inFlightCount (mfindD u.messages chatId []) ≤ 1 := hone chatId
          omega
      · rw [if_neg hc]
        exact hone c
    · intro c hc
      simp only [loadMessagesSuccess]
      rw [mfindD_minsert]
      by_cases hc' : c = chatId
      · rw [if_pos hc']
        cases cursor with
        | none =>
          show typingCount (mockGetMessages chatId none baseTime).messages = 0
          omega
        | some n =>
          show typingCount (mfindD u.messages chatId [] ++
            (mockGetMessages chatId (some n) baseTime).messages) = 0
          rw [typingCount_append, hpage0T]
          have h1 : typingCount (mfindD u.messages chatId []) = 0 := by
            have h2 : typingCount (mfindD u.messages c []) = 0 := hpend c hc
            rwa [hc'] at h2
          omega
      · rw [if_neg hc']
        exact hpend c hc
  | loadFailure u p errMsg =>
    exact ⟨fun c => hone c, fun c hc => hpend c hc⟩
  | deleteStart u p chatId =>
    refine ⟨fun c => hone c, ?_⟩
    intro c hc
    by_cases hcc : u.currentChatId = some chatId
    · rw [if_pos hcc] at hc
      nomatch hc
    · rw [if_neg hcc] at hc
      exact hpend c hc
  | deleteResolve u p result chatId =>
    by_cases hsucc : result.success = true
    · refine ⟨?_, ?_⟩
      · intro c
        simp only [deleteChatResolve, if_pos hsucc, deleteChatSuccess]
        rw [mfindD_merase]
        by_cases hc : c = chatId
        · simp [hc, inFlightCount]
        · rw [if_neg hc]
          exact hone c
      · intro c hc
        simp only [deleteChatResolve, if_pos hsucc, deleteChatSuccess]
        rw [mfindD_merase]
        by_cases hc' : c = chatId
        · simp [hc', typingCount]
        · rw [if_neg hc']
          exact hpend c hc
    · refine ⟨?_, ?_⟩
      · intro c
        simp only [deleteChatResolve, if_neg hsucc]
        exact hone c
      · intro c hc
        simp only [deleteChatResolve, if_neg hsucc]
        exact hpend c hc
  | deleteFailure u p errMsg =>
    exact ⟨fun c => hone c, fun c hc => hpend c hc⟩

/-- Every state reachable under the guarded send discipline satisfies the
system invariant. -/
theorem reachable_inv (s : SysState) (h : Reachable true s) : SysInv s := by
  induction h with
  | refl =>
    refine ⟨?_, ?_⟩
    · intro c
      simp [initSys, initialChatState, mfindD, inFlightCount]
    · intro c hc
      nomatch hc
  | tail _ hstep ih => exact step_preserves_inv _ _ hstep ih

/-- **C1 counterexample.** The claim fails on the unrestricted operation
sequence `sendMessage("hi"); sendMessage("again")`: the second
`sendMessage` aborts the first request's controller but appends its own
`thinking` placeholder without resolving the first one
(`ChatContext.tsx` lines 250-289 perform no check for an existing
in-flight message), so the fresh chat's list reaches a state with two
`thinking` messages at once. -/
theorem C1_counterexample :
    ∃ s : SysState, ∃ chatId : String, Reachable false s ∧
      inFlightCount (mfindD s.ui.messages chatId []) = 2 ∧
      ¬ inFlightCount (mfindD s.ui.messages chatId []) ≤ 1 := by
  refine ⟨⟨sendOptimisticUpdate ("new-chat-" ++ toString 0) "msg-u2" "msg-t2" "again" "ts2"
      (sendOptimisticUpdate ("new-chat-" ++ toString 0) "msg-u1" "msg-t1" "hi" "ts1"
        (sendNewChatUpdate ("new-chat-" ++ toString 0) initialChatState)),
      some ("new-chat-" ++ toString 0)⟩,
    "new-chat-" ++ toString 0, ?_, ?_, ?_⟩
  · have h1 : Step false initSys
        ⟨sendNewChatUpdate ("new-chat-" ++ toString 0) initialChatState, none⟩ :=
      Step.sendNewChat initialChatState none 0 rfl
    have h2 : Step false
        ⟨sendNewChatUpdate ("new-chat-" ++ toString 0) initialChatState, none⟩
        ⟨sendOptimisticUpdate ("new-chat-" ++ toString 0) "msg-u1" "msg-t1" "hi" "ts1"
           (sendNewChatUpdate ("new-chat-" ++ toString 0) initialChatState),
         some ("new-chat-" ++ toString 0)⟩ :=
      Step.sendOptimistic _ none ("new-chat-" ++ toString 0)
        "msg-u1" "msg-t1" "hi" "ts1" rfl (fun hg => absurd hg Bool.false_ne_true)
    have h3 : Step false
        ⟨sendOptimisticUpdate ("new-chat-" ++ toString 0) "msg-u1" "msg-t1" "hi" "ts1"
           (sendNewChatUpdate ("new-chat-" ++ toString 0) initialChatState),
         some ("new-chat-" ++ toString 0)⟩
        ⟨sendOptimisticUpdate ("new-chat-" ++ toString 0) "msg-u2" "msg-t2" "again" "ts2"
           (sendOptimisticUpdate ("new-chat-" ++ toString 0) "msg-u1" "msg-t1" "hi" "ts1"
             (sendNewChatUpdate ("new-chat-" ++ toString 0) initialChatState)),
         some ("new-chat-" ++ toString 0)⟩ :=
      Step.sendOptimistic _ (some ("new-chat-" ++ toString 0))
        ("new-chat-" ++ toString 0)
        "msg-u2" "msg-t2" "again" "ts2" rfl (fun hg => absurd hg Bool.false_ne_true)
    exact Relation.ReflTransGen.tail
      (Relation.ReflTransGen.tail (Relation.ReflTransGen.single h1) h2) h3
  · rfl
  · decide

/-- **C1 (amended).** In every state reachable by the session operations
under the discipline that `sendMessage` is only issued on a chat with no
in-flight assistant message (which the input component enforces by calling
`cancelMessage` before a concurrent send), every chat's message list holds
at most one message with status `thinking` or `typing`. -/
theorem C1_at_most_one_in_flight (s : SysState) (h : Reachable true s) :
    ∀ chatId, inFlightCount (mfindD s.ui.messages chatId []) ≤ 1 :=
  (reachable_inv s h).1

/-- Witness for the amended C1 after a concrete guarded send. -/
theorem C1_at_most_one_in_flight_witness :
    inFlightCount
      (mfindD (⟨sendOptimisticUpdate ("new-chat-" ++ toString 0)
          "msg-u1" "msg-t1" "hi" "ts1"
          (sendNewChatUpdate ("new-chat-" ++ toString 0) initialChatState),
        some ("new-chat-" ++ toString 0)⟩ : SysState).ui.messages
        ("new-chat-" ++ toString 0) []) ≤ 1 :=
  C1_at_most_one_in_flight _
    (Relation.ReflTransGen.tail
      (Relation.ReflTransGen.single (Step.sendNewChat initialChatState none 0 rfl))
      (Step.sendOptimistic _ none ("new-chat-" ++ toString 0)
        "msg-u1" "msg-t1" "hi" "ts1" rfl (fun _ => rfl)))
    ("new-chat-" ++ toString 0)

end ChatSpec
